import Mathlib

/-!
Shallow embedding of the metrics_generator application (src/app.py) and proofs of the
specified properties of its four core operations: the schema normalizer
(`parse_sql_file`), the metric proposer (`analyze_schema`), the sample visualizer
(`generate_sample_visualization`) and the dashboard code generator
(`generate_dashboard_code`).

Python dictionaries decoded from JSON are modelled with `Option`-valued fields: a
subscript access `metric["k"]` raises `KeyError` when the key is absent, which the
embedding renders as `Option` propagation (`none` = the operation raises a missing-key
error). All operations of the `SchemaAnalyzer` class are embedded inside the
namespace `MetricsGenerator`.
-/

namespace MetricsGenerator

/-- One metric record as decoded from the reasoning-service response (spec section 3).
The pipeline never validates field presence, so every field is `Option`-valued:
`none` models an absent key, and reading it models the `KeyError` raised by
`metric["field"]` in src/app.py. -/
structure Metric where
  name : Option String
  description : Option String
  sql_query : Option String
  visualization_type : Option String
  update_frequency : Option String
deriving Repr, DecidableEq

/-- The `{"metrics": [...]}` wrapper produced by the proposer and consumed by
`generate_dashboard_code` via `metrics["metrics"]` (src/app.py line 112). -/
structure MetricSet where
  metrics : List Metric
deriving Repr, DecidableEq

/-! ## Schema normalizer (src/app.py lines 16-19) -/

/-- Modelled from the spec: a statement as produced by the external `sqlparse.parse`
library call — its rendered text (`str(stmt)`) and its classification
(`stmt.get_type()`, which is the string `UNKNOWN` exactly when sqlparse cannot
classify the statement). The text-to-statement split itself is external library
behaviour, so `parse_sql_file` is embedded over the parsed statement list. -/
structure SqlStatement where
  text : String
  get_type : String
deriving Repr, DecidableEq

/-- Embedding of `parse_sql_file` (src/app.py lines 16-19): keep the statements whose
classification is not `UNKNOWN`, render each, and join with newlines. Total — no
error path exists for malformed input, which sqlparse classifies as `UNKNOWN`. -/
def parse_sql_file (parsed : List SqlStatement) : String :=
  String.intercalate "\n" ((parsed.filter fun stmt => stmt.get_type != "UNKNOWN").map
    fun stmt => stmt.text)

/-! ## JSON values and decoding (model of the external `json.loads`) -/

/-- JSON values, as decoded by Python's `json.loads`. Numeric literals are modelled
as integers (the metric payloads of this application carry only strings, objects
and arrays). -/
inductive Json where
  | null : Json
  | bool (b : Bool) : Json
  | num (n : Int) : Json
  | str (s : String) : Json
  | arr (elems : List Json) : Json
  | obj (members : List (String × Json)) : Json

/-- The double-quote character, written via its code point so that string-delimiter
characters never appear as raw character literals. -/
def dquote : Char := Char.ofNat 34

/-- The backslash character. -/
def bslash : Char := Char.ofNat 92

/-- The opening-brace character. -/
def lbrace : Char := Char.ofNat 123

/-- The closing-brace character. -/
def rbrace : Char := Char.ofNat 125

/-- Skip JSON whitespace. -/
def skipWs : List Char → List Char
  | [] => []
  | c :: cs => if c = ' ' ∨ c = '\n' ∨ c = '\t' ∨ c = '\r' then skipWs cs else c :: cs

/-- Parse the body of a JSON string after the opening quote, returning the decoded
characters and the remaining input. Escapes are modelled for the sequences used by
this application. -/
def parseStringBody : Nat → List Char → Option (List Char × List Char)
  | 0, _ => none
  | _ + 1, [] => none
  | fuel + 1, c :: cs =>
    if c = dquote then some ([], cs)
    else if c = bslash then
      match cs with
      | [] => none
      | e :: cs2 =>
        (if e = dquote then some dquote
         else if e = bslash then some bslash
         else if e = '/' then some '/'
         else if e = 'n' then some '\n'
         else if e = 't' then some '\t'
         else if e = 'r' then some '\r'
         else none).bind fun d =>
          (parseStringBody fuel cs2).map fun p => (d :: p.1, p.2)
    else (parseStringBody fuel cs).map fun p => (c :: p.1, p.2)

/-- Take a maximal prefix of decimal digits. -/
def takeDigits : List Char → List Char × List Char
  | [] => ([], [])
  | c :: cs =>
    if c.isDigit then
      let p := takeDigits cs
      (c :: p.1, p.2)
    else ([], c :: cs)

/-- Decimal digits to a natural number. -/
def digitsToNat (l : List Char) : Nat :=
  l.foldl (fun a c => a * 10 + (c.toNat - 48)) 0

mutual

/-- Fuel-indexed JSON value parser (model of the external `json.loads` grammar,
restricted to integer numeric literals). -/
def parseValue : Nat → List Char → Option (Json × List Char)
  | 0, _ => none
  | fuel + 1, input =>
    match skipWs input with
    | [] => none
    | 'n' :: 'u' :: 'l' :: 'l' :: rest => some (Json.null, rest)
    | 't' :: 'r' :: 'u' :: 'e' :: rest => some (Json.bool true, rest)
    | 'f' :: 'a' :: 'l' :: 's' :: 'e' :: rest => some (Json.bool false, rest)
    | '-' :: rest =>
      match takeDigits rest with
      | ([], _) => none
      | (ds, r2) => some (Json.num (-(digitsToNat ds : Int)), r2)
    | c :: rest =>
      if c = dquote then
        (parseStringBody (rest.length + 1) rest).map fun p => (Json.str (String.mk p.1), p.2)
      else if c = '[' then
        match skipWs rest with
        | ']' :: r2 => some (Json.arr [], r2)
        | other => (parseItems fuel other).map fun p => (Json.arr p.1, p.2)
      else if c = lbrace then
        match skipWs rest with
        | d :: r2 =>
          if d = rbrace then some (Json.obj [], r2)
          else (parseMembers fuel (d :: r2)).map fun p => (Json.obj p.1, p.2)
        | [] => none
      else if c.isDigit then
        match takeDigits (c :: rest) with
        | (ds, r2) => some (Json.num (digitsToNat ds : Int), r2)
      else none

/-- Parse the comma-separated items of a JSON array up to the closing bracket. -/
def parseItems : Nat → List Char → Option (List Json × List Char)
  | 0, _ => none
  | fuel + 1, input =>
    (parseValue fuel input).bind fun p =>
      match skipWs p.2 with
      | ',' :: r2 => (parseItems fuel r2).map fun q => (p.1 :: q.1, q.2)
      | ']' :: r2 => some ([p.1], r2)
      | _ => none

/-- Parse the comma-separated members of a JSON object up to the closing brace. -/
def parseMembers : Nat → List Char → Option (List (String × Json) × List Char)
  | 0, _ => none
  | fuel + 1, input =>
    match skipWs input with
    | c :: rest =>
      if c = dquote then
        (parseStringBody (rest.length + 1) rest).bind fun kp =>
          match skipWs kp.2 with
          | ':' :: r2 =>
            (parseValue fuel r2).bind fun vp =>
              match skipWs vp.2 with
              | ',' :: r4 =>
                (parseMembers fuel r4).map fun q => ((String.mk kp.1, vp.1) :: q.1, q.2)
              | d :: r4 =>
                if d = rbrace then some ([(String.mk kp.1, vp.1)], r4) else none
              | [] => none
          | _ => none
      else none
    | [] => none

end

/-- Model of the external `json.loads`: decode the whole text as one JSON value,
failing (as the Python call raises `json.JSONDecodeError`) when the text is not
valid JSON or leaves trailing input. -/
def json_loads (s : String) : Except String Json :=
  match parseValue (s.data.length + 1) s.data with
  | none => Except.error "Expecting value"
  | some (j, rest) =>
    if (skipWs rest).isEmpty then Except.ok j else Except.error "Extra data"

/-- Modelled from the spec: the response shape the proposer expects (spec sections 4.2
and 6) — an object whose `metrics` member is an array of records carrying the five
metric fields. Used only to state what `analyze_schema` does NOT check. -/
def isMetricRecord : Json → Bool
  | Json.obj ms =>
    (ms.lookup "name").isSome && (ms.lookup "description").isSome &&
    (ms.lookup "sql_query").isSome && (ms.lookup "visualization_type").isSome &&
    (ms.lookup "update_frequency").isSome
  | _ => false

/-- Modelled from the spec: whether a decoded JSON value matches the expected
`{"metrics": [...]}` shape of spec section 6. -/
def matchesExpectedShape : Json → Bool
  | Json.obj ms =>
    match ms.lookup "metrics" with
    | some (Json.arr elems) => elems.all isMetricRecord
    | _ => false
  | _ => false

/-- Embedding of `analyze_schema` (src/app.py lines 21-48). The prompt construction
and the reasoning-service round trip are external effects; the function's value is
`json.loads(response.content[0].text)` (line 48), returned with no try/except and no
shape validation. `responseText` stands for `response.content[0].text`; a decoding
failure is the propagated error. -/
def analyze_schema (responseText : String) : Except String Json :=
  json_loads responseText

/-! ## Sample visualizer (src/app.py lines 50-77) -/

/-- The chart constructor chosen by `generate_sample_visualization` (`px.line`,
`px.bar`, `px.pie` or `px.scatter`). -/
inductive ChartKind where
  | line : ChartKind
  | bar : ChartKind
  | pie : ChartKind
  | scatter : ChartKind
deriving Repr, DecidableEq

/-- The plotly figure as far as the embedding observes it: the chart constructor,
its title, its x axis (day offsets from the fixed epoch 2024-01-01 produced by
`pd.date_range(periods=30)`), the pie category labels, and the numeric data series.
The trailing `fig.update_layout` call (src/app.py lines 72-76) sets constant
presentation attributes (centered title, fixed margins, height 400) and is not part
of the data the claims observe. -/
structure Figure where
  kind : ChartKind
  title : String
  x : List Nat
  names : List String
  values : List Int
deriving Repr, DecidableEq

/-- The four fixed pie-chart category labels (src/app.py line 64). -/
def pieLabels : List String := ["Category A", "Category B", "Category C", "Category D"]

/-- Model of `np.cumsum`: running prefix sums, preserving length. -/
def np_cumsum : List Int → List Int
  | [] => []
  | x :: xs => x :: (np_cumsum xs).map (fun y => x + y)

/-- Embedding of `generate_sample_visualization` (src/app.py lines 50-77). The random
draws are modelled by the streams `normals` (the `np.random.normal(10, 2, 30)`
increments) and `randints` (the `np.random.randint(10, 100, n)` values): the branch
taken and the series length never depend on the drawn values. Reading a missing
`visualization_type` or `name` key raises `KeyError`, modelled by `none`. -/
def generate_sample_visualization (normals randints : Nat → Int) (metric : Metric) :
    Option Figure := do
  let dates := List.range 30
  let vt ← metric.visualization_type
  if vt.toLower = "line" then do
    let values := np_cumsum ((List.range 30).map normals)
    let nm ← metric.name
    pure { kind := ChartKind.line, title := nm, x := dates, names := [], values := values }
  else if vt.toLower = "bar" then do
    let values := (List.range 30).map randints
    let nm ← metric.name
    pure { kind := ChartKind.bar, title := nm, x := dates, names := [], values := values }
  else if vt.toLower = "pie" then do
    let values := (List.range 4).map randints
    let nm ← metric.name
    pure { kind := ChartKind.pie, title := nm, x := [], names := pieLabels, values := values }
  else do
    let values := (List.range 30).map randints
    let nm ← metric.name
    pure { kind := ChartKind.scatter, title := nm, x := dates, names := [], values := values }

/-! ## Dashboard code generator (src/app.py lines 79-164)

The three constant template fragments below are byte-for-byte transcriptions of the
triple-quoted strings at src/app.py lines 81-109, 115-126 and 136-163. Quote,
apostrophe and brace characters of the generated Python text are written with
hexadecimal escapes (\x22, \x27, \x7b, \x7d). -/

/-- Fixed boilerplate emitted first (src/app.py lines 81-109): imports, app
initialization, the database-connection helper with placeholder credentials, and the
opening of the layout scaffold. -/
def dashboardHeader : String :=
  "import dash\nfrom dash import html, dcc\nfrom dash.dependencies import Input, Output\nimport plotly.express as px\nimport plotly.graph_objects as go\nimport pandas as pd\nimport numpy as np\nfrom datetime import datetime, timedelta\nimport psycopg2  # For PostgreSQL connection\n\n# Initialize the Dash app\napp = dash.Dash(__name__)\n\n# Database connection function\ndef get_db_connection():\n    return psycopg2.connect(\n        dbname=\x22your_database\x22,\n        user=\x22your_user\x22,\n        password=\x22your_password\x22,\n        host=\x22your_host\x22,\n        port=\x22your_port\x22\n    )\n\n# Layout\napp.layout = html.Div([\n    html.H1(\x22Database Metrics Dashboard\x22, style=\x7b\x27textAlign\x27: \x27center\x27\x7d),\n    html.Div([\n        dcc.Tabs(id=\x27metric-tabs\x27, value=\x27tab-0\x27, children=[\n"

/-- One tab-declaration line (the f-string at src/app.py line 113), with the metric
name and index interpolated unescaped. -/
def tabLine (i : Nat) (nm : String) : String :=
  "            dcc.Tab(label=\x27" ++ nm ++ "\x27, value=\x27tab-" ++ toString i ++ "\x27),\n"

/-- Fixed fragment between the tab list and the lookup table (src/app.py lines
115-126): closes the layout and opens the `update_metric` callback. -/
def dashboardMid : String :=
  "        ]),\n        html.Div(id=\x27metric-content\x27)\n    ])\n])\n\n# Callback to update content\n@app.callback(\n    Output(\x27metric-content\x27, \x27children\x27),\n    Input(\x27metric-tabs\x27, \x27value\x27)\n)\ndef update_metric(tab):\n    metrics = \x7b\n"

/-- One lookup-table entry (the f-string at src/app.py lines 130-134) carrying the
metric's name, sql_query and visualization_type as literal strings. -/
def lookupEntry (i : Nat) (nm q vt : String) : String :=
  "        \x27tab-" ++ toString i ++ "\x27: \x7b\n            \x27name\x27: \x27" ++ nm ++
  "\x27,\n            \x27query\x27: \x27\x27\x27" ++ q ++
  "\x27\x27\x27,\n            \x27type\x27: \x27" ++ vt ++ "\x27\n        \x7d,\n"

/-- Fixed trailer (src/app.py lines 136-163): the body of `update_metric` — the
"no metric selected" guard, the guarded query execution, the chart-kind dispatch with
scatter default, the inline error path — and the main entry point. -/
def dashboardFooter : String :=
  "    \x7d\n    \n    if tab not in metrics:\n        return html.Div(\x22No metric selected\x22)\n    \n    # Execute query and get data\n    try:\n        conn = get_db_connection()\n        df = pd.read_sql_query(metrics[tab][\x27query\x27], conn)\n        conn.close()\n        \n        # Create visualization based on type\n        if metrics[tab][\x27type\x27].lower() == \x27line\x27:\n            fig = px.line(df, x=\x27timestamp\x27, y=\x27value\x27, title=metrics[tab][\x27name\x27])\n        elif metrics[tab][\x27type\x27].lower() == \x27bar\x27:\n            fig = px.bar(df, x=\x27timestamp\x27, y=\x27value\x27, title=metrics[tab][\x27name\x27])\n        else:\n            fig = px.scatter(df, x=\x27timestamp\x27, y=\x27value\x27, title=metrics[tab][\x27name\x27])\n            \n        return html.Div([\n            dcc.Graph(figure=fig)\n        ])\n    except Exception as e:\n        return html.Div(f\x22Error: \x7bstr(e)\x7d\x22)\n\nif __name__ == \x27__main__\x27:\n    app.run_server(debug=True)\n"

/-- The first generator loop (src/app.py lines 112-113): append one tab line per
metric, reading `metric["name"]` (`none` = `KeyError`), with `i` following
`enumerate`. -/
def tabsAux : Nat → List Metric → Option String
  | _, [] => some ""
  | i, m :: rest => do
    let nm ← m.name
    let s ← tabsAux (i + 1) rest
    pure (tabLine i nm ++ s)

/-- The second generator loop (src/app.py lines 129-134): append one lookup-table
entry per metric, reading `metric["name"]`, `metric["sql_query"]` and
`metric["visualization_type"]` in f-string order. -/
def entriesAux : Nat → List Metric → Option String
  | _, [] => some ""
  | i, m :: rest => do
    let nm ← m.name
    let q ← m.sql_query
    let vt ← m.visualization_type
    let s ← entriesAux (i + 1) rest
    pure (lookupEntry i nm q vt ++ s)

/-- Embedding of `generate_dashboard_code` (src/app.py lines 79-164): the fixed
header, one tab line per metric, the fixed middle fragment, one lookup entry per
metric, and the fixed trailer, accumulated by `+=` in that order. No random source
is consumed on this path (contrast `generate_sample_visualization`). -/
def generate_dashboard_code (ms : MetricSet) : Option String := do
  let tabs ← tabsAux 0 ms.metrics
  let entries ← entriesAux 0 ms.metrics
  pure (dashboardHeader ++ tabs ++ dashboardMid ++ entries ++ dashboardFooter)

/-! ## Derived notions used to state the claims -/

/-- Concatenation of a list of strings in order. -/
def concatAll : List String → String
  | [] => ""
  | s :: rest => s ++ concatAll rest

/-- Map with the running index, starting at `i` (the shape of Python's
`enumerate`). -/
def enumMapFrom (f : Nat → α → β) : Nat → List α → List β
  | _, [] => []
  | i, a :: rest => f i a :: enumMapFrom f (i + 1) rest

/-- The three fields of a metric that `generate_dashboard_code` reads, in the order
the f-string at src/app.py lines 130-134 reads them; `none` when any is absent. -/
def metricFields (m : Metric) : Option (String × String × String) := do
  let nm ← m.name
  let q ← m.sql_query
  let vt ← m.visualization_type
  pure (nm, q, vt)

/-- The three read fields of every metric of a list, `none` when any metric lacks
one. -/
def fieldsOf : List Metric → Option (List (String × String × String))
  | [] => some []
  | m :: rest => do
    let t ← metricFields m
    let ts ← fieldsOf rest
    pure (t :: ts)

/-- One entry of the lookup table built at runtime by the generated
`update_metric` routine (the dict literal of src/app.py lines 126-136). -/
structure TableEntry where
  name : String
  query : String
  vtype : String
deriving Repr, DecidableEq

/-- What the generated `update_metric` routine renders for the active tab. -/
inductive UpdateResult where
  | noMetricSelected : UpdateResult
  | chart (kind : ChartKind) (title : String) : UpdateResult
  | errorDiv (msg : String) : UpdateResult
deriving Repr, DecidableEq

/-- Semantics of the generated `update_metric` routine (the text of
`dashboardFooter`, src/app.py lines 136-163): if the active tab is not a key of the
lookup table, render "No metric selected"; otherwise run the entry's query against
the live connection (`db` models `pd.read_sql_query`; an `Except.error` is a raised
exception) inside the guarded block, dispatch on the stored visualization kind with
scatter as default, and on failure render the inline error message. -/
def update_metric (db : String → Except String Unit)
    (table : List (String × TableEntry)) (tab : String) : UpdateResult :=
  match table.find? (fun e => e.1 == tab) with
  | none => UpdateResult.noMetricSelected
  | some e =>
    match db e.2.query with
    | Except.error msg => UpdateResult.errorDiv ("Error: " ++ msg)
    | Except.ok _ =>
      if e.2.vtype.toLower = "line" then UpdateResult.chart ChartKind.line e.2.name
      else if e.2.vtype.toLower = "bar" then UpdateResult.chart ChartKind.bar e.2.name
      else UpdateResult.chart ChartKind.scatter e.2.name

/-- The lookup table the generated dashboard builds at runtime: one
`('tab-i', entry)` pair per emitted lookup entry, in emission order. -/
def dashboardTableAux : Nat → List Metric → Option (List (String × TableEntry))
  | _, [] => some []
  | i, m :: rest => do
    let nm ← m.name
    let q ← m.sql_query
    let vt ← m.visualization_type
    let t ← dashboardTableAux (i + 1) rest
    pure (("tab-" ++ toString i, TableEntry.mk nm q vt) :: t)

/-- The runtime lookup table of the dashboard generated from a MetricSet. -/
def dashboardTable (ms : MetricSet) : Option (List (String × TableEntry)) :=
  dashboardTableAux 0 ms.metrics

/-- State-passing embedding of a sample-visualizer invocation. The source body
(src/app.py lines 50-77) contains no assignment to the metric dictionary — every
statement only reads it — so the embedding returns the metric unchanged alongside
the produced figure. -/
def generate_sample_visualization_st (normals randints : Nat → Int) (metric : Metric) :
    Option Figure × Metric :=
  (generate_sample_visualization normals randints metric, metric)

/-- State-passing embedding of a generator invocation. The source body (src/app.py
lines 79-164) contains no assignment to the metrics dictionary or the metric list —
every statement only reads them — so the embedding returns the MetricSet unchanged
alongside the produced text. -/
def generate_dashboard_code_st (ms : MetricSet) : Option String × MetricSet :=
  (generate_dashboard_code ms, ms)

/-- The metric of the spec's end-to-end scenario (spec section 8, item 7), carrying
all five fields. Used as a concrete input by several witnesses. -/
def sampleMetric : Metric :=
  Metric.mk (some "Daily Revenue") (some "sum of order totals per day")
    (some "SELECT date, SUM(total) FROM orders GROUP BY date") (some "line") (some "daily")

/-- A metric carrying the three fields the renderers read but missing description
and update_frequency. -/
def metricNoDescription : Metric :=
  Metric.mk (some "Orders") none (some "SELECT 1") (some "line") none

/-! ## Theorems -/

/-- Every prefix-sum list has the length of its input (`np.cumsum` preserves
shape). -/
theorem np_cumsum_length : ∀ l : List Int, (np_cumsum l).length = l.length
  | [] => rfl
  | x :: xs => by simp [np_cumsum, np_cumsum_length xs]

/-- Enumerated map preserves length. -/
theorem enumMapFrom_length (f : Nat → α → β) (l : List α) :
    ∀ i, (enumMapFrom f i l).length = l.length := by
  induction l with
  | nil => intro i; rfl
  | cons a rest ih => intro i; simp [enumMapFrom, ih]

/-- A char already lowercased is a fixed point of `Char.toLower`. -/
theorem char_toNat_ofNat_valid {n : Nat} (h : n.isValidChar) : (Char.ofNat n).toNat = n := by
  unfold Char.ofNat
  rw [dif_pos h]
  rfl

/-- Lowercasing a character twice equals lowercasing it once. -/
theorem char_toLower_toLower (c : Char) : c.toLower.toLower = c.toLower := by
  by_cases h : c.toNat ≥ 65 ∧ c.toNat ≤ 90
  · have h1 : c.toLower = Char.ofNat (c.toNat + 32) := by
      unfold Char.toLower
      rw [if_pos h]
    have hv : (c.toNat + 32).isValidChar := Or.inl (by omega)
    have ht : (Char.ofNat (c.toNat + 32)).toNat = c.toNat + 32 := char_toNat_ofNat_valid hv
    rw [h1]
    conv_lhs => unfold Char.toLower
    rw [if_neg (by rw [ht]; omega)]
  · have h1 : c.toLower = c := by
      unfold Char.toLower
      rw [if_neg h]
    rw [h1, h1]

/-- Lowercasing a string twice equals lowercasing it once (Python's `.lower()` is
idempotent on the ASCII range the embedding models). -/
theorem string_toLower_toLower (s : String) : s.toLower.toLower = s.toLower := by
  simp only [String.toLower, String.map_eq, List.map_map, Function.comp]
  congr 1
  exact List.map_congr_left fun c _ => char_toLower_toLower c

/-- A successful three-field projection determines the metric's read fields. -/
theorem metricFields_eq {m : Metric} {t : String × String × String}
    (h : metricFields m = some t) :
    m.name = some t.1 ∧ m.sql_query = some t.2.1 ∧ m.visualization_type = some t.2.2 := by
  cases hn : m.name with
  | none => simp [metricFields, hn] at h
  | some nm =>
    cases hq : m.sql_query with
    | none => simp [metricFields, hn, hq] at h
    | some q =>
      cases hv : m.visualization_type with
      | none => simp [metricFields, hn, hq, hv] at h
      | some vt =>
        simp [metricFields, hn, hq, hv] at h
        subst h
        exact ⟨rfl, rfl, rfl⟩

/-- A successful whole-list projection has one triple per metric. -/
theorem fieldsOf_length : ∀ (l : List Metric) (tr : List (String × String × String)),
    fieldsOf l = some tr → tr.length = l.length := by
  intro l
  induction l with
  | nil =>
    intro tr h
    simp [fieldsOf] at h
    subst h
    rfl
  | cons m rest ih =>
    intro tr h
    cases hm : metricFields m with
    | none => simp [fieldsOf, hm] at h
    | some t =>
      cases hr : fieldsOf rest with
      | none => simp [fieldsOf, hm, hr] at h
      | some ts =>
        simp [fieldsOf, hm, hr] at h
        subst h
        simp [ih ts hr]

/-- The first generator loop renders exactly one tab line per metric, labeled with
that metric's name, indexed consecutively from the loop start. -/
theorem tabsAux_eq : ∀ (l : List Metric) (i : Nat) (tr : List (String × String × String)),
    fieldsOf l = some tr →
    tabsAux i l = some (concatAll (enumMapFrom (fun k t => tabLine k t.1) i tr)) := by
  intro l
  induction l with
  | nil =>
    intro i tr h
    simp [fieldsOf] at h
    subst h
    rfl
  | cons m rest ih =>
    intro i tr h
    cases hm : metricFields m with
    | none => simp [fieldsOf, hm] at h
    | some t =>
      cases hr : fieldsOf rest with
      | none => simp [fieldsOf, hm, hr] at h
      | some ts =>
        simp [fieldsOf, hm, hr] at h
        subst h
        obtain ⟨hn, -, -⟩ := metricFields_eq hm
        simp [tabsAux, hn, ih (i + 1) ts hr, enumMapFrom, concatAll]

/-- The second generator loop renders exactly one lookup entry per metric, carrying
that metric's name, sql_query and visualization_type, indexed consecutively. -/
theorem entriesAux_eq : ∀ (l : List Metric) (i : Nat) (tr : List (String × String × String)),
    fieldsOf l = some tr →
    entriesAux i l =
      some (concatAll (enumMapFrom (fun k t => lookupEntry k t.1 t.2.1 t.2.2) i tr)) := by
  intro l
  induction l with
  | nil =>
    intro i tr h
    simp [fieldsOf] at h
    subst h
    rfl
  | cons m rest ih =>
    intro i tr h
    cases hm : metricFields m with
    | none => simp [fieldsOf, hm] at h
    | some t =>
      cases hr : fieldsOf rest with
      | none => simp [fieldsOf, hm, hr] at h
      | some ts =>
        simp [fieldsOf, hm, hr] at h
        subst h
        obtain ⟨hn, hq, hv⟩ := metricFields_eq hm
        simp [entriesAux, hn, hq, hv, ih (i + 1) ts hr, enumMapFrom, concatAll]

/-- C1: for a MetricSet whose N metrics all carry the read fields (projected in
order into `tr`), the generator's output text is exactly the fixed header, one
tab-declaration line per metric labeled with that metric's name, the fixed middle
fragment, one lookup-table entry per metric carrying its name, sql_query and
visualization_type as literal strings, and the fixed trailer — so exactly N tab
lines and N lookup entries, both in MetricSet order. -/
theorem generate_dashboard_code_structure (ms : MetricSet)
    (tr : List (String × String × String)) (h : fieldsOf ms.metrics = some tr) :
    generate_dashboard_code ms =
      some (dashboardHeader ++
        concatAll (enumMapFrom (fun i t => tabLine i t.1) 0 tr) ++ dashboardMid ++
        concatAll (enumMapFrom (fun i t => lookupEntry i t.1 t.2.1 t.2.2) 0 tr) ++
        dashboardFooter) ∧
    (enumMapFrom (fun i t => tabLine i t.1) 0 tr).length = ms.metrics.length ∧
    (enumMapFrom (fun i t => lookupEntry i t.1 t.2.1 t.2.2) 0 tr).length =
      ms.metrics.length := by
  refine ⟨?_, ?_, ?_⟩
  · simp [generate_dashboard_code, tabsAux_eq ms.metrics 0 tr h,
      entriesAux_eq ms.metrics 0 tr h]
  · rw [enumMapFrom_length, fieldsOf_length ms.metrics tr h]
  · rw [enumMapFrom_length, fieldsOf_length ms.metrics tr h]

/-- Witness for C1: on the spec's end-to-end scenario MetricSet the generator output
is the header, one tab line, the middle fragment, one lookup entry and the trailer,
with both emitted lists of length one. -/
theorem generate_dashboard_code_structure_witness :
    generate_dashboard_code (MetricSet.mk [sampleMetric]) =
      some (dashboardHeader ++
        concatAll (enumMapFrom (fun i t => tabLine i t.1) 0
          [("Daily Revenue", "SELECT date, SUM(total) FROM orders GROUP BY date", "line")]) ++
        dashboardMid ++
        concatAll (enumMapFrom (fun i t => lookupEntry i t.1 t.2.1 t.2.2) 0
          [("Daily Revenue", "SELECT date, SUM(total) FROM orders GROUP BY date", "line")]) ++
        dashboardFooter) ∧
    (enumMapFrom (fun i t => tabLine i t.1) 0
      [("Daily Revenue", "SELECT date, SUM(total) FROM orders GROUP BY date", "line")]).length =
      (MetricSet.mk [sampleMetric]).metrics.length ∧
    (enumMapFrom (fun i t => lookupEntry i t.1 t.2.1 t.2.2) 0
      [("Daily Revenue", "SELECT date, SUM(total) FROM orders GROUP BY date", "line")]).length =
      (MetricSet.mk [sampleMetric]).metrics.length :=
  generate_dashboard_code_structure (MetricSet.mk [sampleMetric])
    [("Daily Revenue", "SELECT date, SUM(total) FROM orders GROUP BY date", "line")] rfl

/-- C5: the schema normalizer returns exactly the statements whose classification is
not unrecognized, rendered and concatenated newline-separated in their original
order; the retained statements form a sublist of the input (so none is duplicated
or reordered); if the input is empty or every statement is unrecognized it returns
the empty string; and the function is total, so malformed input (classified
`UNKNOWN` by sqlparse) raises no error. -/
theorem parse_sql_file_correct (parsed : List SqlStatement) :
    parse_sql_file parsed =
      String.intercalate "\n"
        ((parsed.filter fun stmt => stmt.get_type != "UNKNOWN").map fun stmt => stmt.text) ∧
    (parsed.filter fun stmt => stmt.get_type != "UNKNOWN").Sublist parsed ∧
    ((∀ stmt ∈ parsed, stmt.get_type = "UNKNOWN") → parse_sql_file parsed = "") ∧
    parse_sql_file [] = "" := by
  refine ⟨rfl, List.filter_sublist parsed, ?_, rfl⟩
  intro h
  have hnil : parsed.filter (fun stmt => stmt.get_type != "UNKNOWN") = [] := by
    rw [List.filter_eq_nil_iff]
    intro a ha
    simp [h a ha]
  rw [parse_sql_file, hnil]
  rfl

/-- Witness for C5 at a concrete input: a lone unrecognized statement is dropped and
the normalizer returns the empty string. -/
theorem parse_sql_file_correct_witness :
    parse_sql_file [SqlStatement.mk "garbage text" "UNKNOWN"] = "" :=
  (parse_sql_file_correct [SqlStatement.mk "garbage text" "UNKNOWN"]).2.2.1 (by decide)

/-- C3: the dashboard code generator is deterministic — it is a pure function of the
MetricSet, with no random source on its path (its embedding, unlike that of the
sample visualizer, consumes no random stream), so invocations on equal MetricSets
produce byte-identical output text. -/
theorem generate_dashboard_code_deterministic (ms1 ms2 : MetricSet) (h : ms1 = ms2) :
    generate_dashboard_code ms1 = generate_dashboard_code ms2 :=
  congrArg generate_dashboard_code h

/-- Witness for C3 at a concrete MetricSet. -/
theorem generate_dashboard_code_deterministic_witness :
    generate_dashboard_code
        (MetricSet.mk [Metric.mk (some "Daily Revenue") (some "d") (some "SELECT 1")
          (some "line") (some "daily")]) =
      generate_dashboard_code
        (MetricSet.mk [Metric.mk (some "Daily Revenue") (some "d") (some "SELECT 1")
          (some "line") (some "daily")]) :=
  generate_dashboard_code_deterministic _ _ rfl

/-- C6: on the empty MetricSet the generator returns without error, emitting the
full fixed boilerplate with zero tab-declaration lines and an empty lookup table,
and the generated update routine always takes the "no metric selected" branch
whatever the live-database behaviour and the active tab. -/
theorem generate_dashboard_code_empty :
    generate_dashboard_code (MetricSet.mk []) =
      some (dashboardHeader ++ "" ++ dashboardMid ++ "" ++ dashboardFooter) ∧
    dashboardTable (MetricSet.mk []) = some [] ∧
    ∀ (db : String → Except String Unit) (tab : String),
      update_metric db [] tab = UpdateResult.noMetricSelected := by
  refine ⟨rfl, rfl, ?_⟩
  intro db tab
  rfl

/-- The tab loop depends on the metric list only through the three read fields. -/
theorem tabsAux_proj : ∀ (l1 l2 : List Metric),
    l1.map (fun m => (m.name, m.sql_query, m.visualization_type)) =
      l2.map (fun m => (m.name, m.sql_query, m.visualization_type)) →
    ∀ i, tabsAux i l1 = tabsAux i l2 := by
  intro l1
  induction l1 with
  | nil =>
    intro l2 h i
    cases l2 with
    | nil => rfl
    | cons a b => simp at h
  | cons m rest ih =>
    intro l2 h i
    cases l2 with
    | nil => simp at h
    | cons m2 rest2 =>
      simp only [List.map_cons, List.cons.injEq, Prod.mk.injEq] at h
      obtain ⟨⟨ha, -, -⟩, h2⟩ := h
      simp [tabsAux, ha, ih rest2 h2 (i + 1)]

/-- The lookup-entry loop depends on the metric list only through the three read
fields. -/
theorem entriesAux_proj : ∀ (l1 l2 : List Metric),
    l1.map (fun m => (m.name, m.sql_query, m.visualization_type)) =
      l2.map (fun m => (m.name, m.sql_query, m.visualization_type)) →
    ∀ i, entriesAux i l1 = entriesAux i l2 := by
  intro l1
  induction l1 with
  | nil =>
    intro l2 h i
    cases l2 with
    | nil => rfl
    | cons a b => simp at h
  | cons m rest ih =>
    intro l2 h i
    cases l2 with
    | nil => simp at h
    | cons m2 rest2 =>
      simp only [List.map_cons, List.cons.injEq, Prod.mk.injEq] at h
      obtain ⟨⟨ha, hb, hc⟩, h2⟩ := h
      simp [entriesAux, ha, hb, hc, ih rest2 h2 (i + 1)]

/-- C9: the generator's output depends only on each metric's name, sql_query and
visualization_type — two MetricSets of equal length whose metrics agree pairwise on
those three fields produce byte-identical output, whatever their descriptions and
update frequencies. -/
theorem generate_dashboard_code_three_fields (ms1 ms2 : MetricSet)
    (hlen : ms1.metrics.length = ms2.metrics.length)
    (hag : ∀ (i : Nat) (h1 : i < ms1.metrics.length) (h2 : i < ms2.metrics.length),
      (ms1.metrics.get ⟨i, h1⟩).name = (ms2.metrics.get ⟨i, h2⟩).name ∧
      (ms1.metrics.get ⟨i, h1⟩).sql_query = (ms2.metrics.get ⟨i, h2⟩).sql_query ∧
      (ms1.metrics.get ⟨i, h1⟩).visualization_type =
        (ms2.metrics.get ⟨i, h2⟩).visualization_type) :
    generate_dashboard_code ms1 = generate_dashboard_code ms2 := by
  have hproj : ms1.metrics.map (fun m => (m.name, m.sql_query, m.visualization_type)) =
      ms2.metrics.map (fun m => (m.name, m.sql_query, m.visualization_type)) := by
    apply List.ext_getElem
    · simpa using hlen
    · intro i h1 h2
      have h1l : i < ms1.metrics.length := by simpa using h1
      have h2l : i < ms2.metrics.length := by simpa using h2
      obtain ⟨ha, hb, hc⟩ := hag i h1l h2l
      simp only [List.get_eq_getElem] at ha hb hc
      simp only [List.getElem_map]
      rw [ha, hb, hc]
  unfold generate_dashboard_code
  rw [tabsAux_proj ms1.metrics ms2.metrics hproj 0,
    entriesAux_proj ms1.metrics ms2.metrics hproj 0]

/-- Witness for C9: two singleton MetricSets differing only in description and
update_frequency generate identical text. -/
theorem generate_dashboard_code_three_fields_witness :
    generate_dashboard_code (MetricSet.mk [sampleMetric]) =
      generate_dashboard_code (MetricSet.mk [Metric.mk (some "Daily Revenue")
        (some "another description")
        (some "SELECT date, SUM(total) FROM orders GROUP BY date")
        (some "line") (some "weekly")]) := by
  apply generate_dashboard_code_three_fields _ _ rfl
  intro i h1 h2
  have hi : i = 0 := by
    simp only [List.length_cons, List.length_nil] at h1
    omega
  subst hi
  exact ⟨rfl, rfl, rfl⟩

/-- Counterexample to C2 as stated: the response text is valid JSON whose decoded
value does not match the expected shape, yet `analyze_schema` returns it as a
result instead of raising — `json.loads` succeeds and src/app.py line 48 performs no
shape validation. -/
theorem analyze_schema_shape_mismatch_returns :
    analyze_schema "\x7b\x7d" = Except.ok (Json.obj []) ∧
    matchesExpectedShape (Json.obj []) = false :=
  ⟨rfl, rfl⟩

/-- C2 (amended): the proposer's result is exactly the JSON-decode outcome of the
response text — a decode failure is propagated unrecovered (never a silently empty
MetricSet, never any ok result), and a successfully decoded value is returned
without shape validation. -/
theorem analyze_schema_propagates_decode_outcome (t : String) :
    analyze_schema t = json_loads t ∧
    (∀ e, json_loads t = Except.error e → ∀ j, analyze_schema t ≠ Except.ok j) := by
  refine ⟨rfl, ?_⟩
  intro e he j hj
  have : json_loads t = Except.ok j := hj
  rw [he] at this
  exact Except.noConfusion this

/-- Witness for C2 (amended) at a concrete undecodable response text. -/
theorem analyze_schema_propagates_decode_outcome_witness :
    analyze_schema "not json" ≠ Except.ok Json.null :=
  (analyze_schema_propagates_decode_outcome "not json").2 "Expecting value" rfl Json.null

/-- The tab loop raises a missing-key error exactly when some metric lacks a
name. -/
theorem tabsAux_eq_none_iff (l : List Metric) : ∀ i,
    tabsAux i l = none ↔ ∃ m ∈ l, m.name = none := by
  induction l with
  | nil => intro i; simp [tabsAux]
  | cons m rest ih =>
    intro i
    constructor
    · intro h
      cases hm : m.name with
      | none => exact ⟨m, List.mem_cons_self m rest, hm⟩
      | some nm =>
        cases ht : tabsAux (i + 1) rest with
        | none =>
          obtain ⟨m2, hmem, hname⟩ := (ih (i + 1)).mp ht
          exact ⟨m2, List.mem_cons_of_mem m hmem, hname⟩
        | some s => simp [tabsAux, hm, ht] at h
    · rintro ⟨m2, hmem, hname⟩
      rcases List.mem_cons.mp hmem with rfl | hmem2
      · simp [tabsAux, hname]
      · have hrest : tabsAux (i + 1) rest = none := (ih (i + 1)).mpr ⟨m2, hmem2, hname⟩
        cases hm : m.name <;> simp [tabsAux, hm, hrest]

/-- The lookup-entry loop raises a missing-key error exactly when some metric lacks
one of the three read fields. -/
theorem entriesAux_eq_none_iff (l : List Metric) : ∀ i,
    entriesAux i l = none ↔
      ∃ m ∈ l, m.name = none ∨ m.sql_query = none ∨ m.visualization_type = none := by
  induction l with
  | nil => intro i; simp [entriesAux]
  | cons m rest ih =>
    intro i
    constructor
    · intro h
      cases hm : m.name with
      | none => exact ⟨m, List.mem_cons_self m rest, Or.inl hm⟩
      | some nm =>
        cases hq : m.sql_query with
        | none => exact ⟨m, List.mem_cons_self m rest, Or.inr (Or.inl hq)⟩
        | some q =>
          cases hv : m.visualization_type with
          | none => exact ⟨m, List.mem_cons_self m rest, Or.inr (Or.inr hv)⟩
          | some vt =>
            cases ht : entriesAux (i + 1) rest with
            | none =>
              obtain ⟨m2, hmem, hbad⟩ := (ih (i + 1)).mp ht
              exact ⟨m2, List.mem_cons_of_mem m hmem, hbad⟩
            | some s => simp [entriesAux, hm, hq, hv, ht] at h
    · rintro ⟨m2, hmem, hbad⟩
      rcases List.mem_cons.mp hmem with rfl | hmem2
      · rcases hbad with hb | hb | hb
        · simp [entriesAux, hb]
        · cases hm : m2.name <;> simp [entriesAux, hm, hb]
        · cases hm : m2.name <;> cases hq : m2.sql_query <;>
            simp [entriesAux, hm, hq, hb]
      · have hrest : entriesAux (i + 1) rest = none := (ih (i + 1)).mpr ⟨m2, hmem2, hbad⟩
        cases hm : m.name <;> cases hq : m.sql_query <;>
          cases hv : m.visualization_type <;> simp [entriesAux, hm, hq, hv, hrest]

/-- The sample visualizer raises a missing-key error exactly when the metric lacks
visualization_type or name; every branch, the scatter default included, reads
both. -/
theorem generate_sample_visualization_eq_none_iff (normals randints : Nat → Int)
    (m : Metric) :
    generate_sample_visualization normals randints m = none ↔
      m.visualization_type = none ∨ m.name = none := by
  cases hv : m.visualization_type with
  | none => simp [generate_sample_visualization, hv]
  | some vt =>
    cases hn : m.name with
    | none =>
      refine iff_of_true ?_ (Or.inr rfl)
      by_cases h1 : vt.toLower = "line"
      · simp [generate_sample_visualization, hv, h1, hn]
      by_cases h2 : vt.toLower = "bar"
      · simp [generate_sample_visualization, hv, h1, h2, hn]
      by_cases h3 : vt.toLower = "pie"
      · simp [generate_sample_visualization, hv, h1, h2, h3, hn]
      · simp [generate_sample_visualization, hv, h1, h2, h3, hn]
    | some nm =>
      refine iff_of_false ?_ (by simp)
      by_cases h1 : vt.toLower = "line"
      · simp [generate_sample_visualization, hv, h1, hn]
      by_cases h2 : vt.toLower = "bar"
      · simp [generate_sample_visualization, hv, h1, h2, hn]
      by_cases h3 : vt.toLower = "pie"
      · simp [generate_sample_visualization, hv, h1, h2, h3, hn]
      · simp [generate_sample_visualization, hv, h1, h2, h3, hn]

/-- The generator raises a missing-key error exactly when some metric of the set
lacks name, sql_query or visualization_type. -/
theorem generate_dashboard_code_eq_none_iff (ms : MetricSet) :
    generate_dashboard_code ms = none ↔
      ∃ m ∈ ms.metrics,
        m.name = none ∨ m.sql_query = none ∨ m.visualization_type = none := by
  unfold generate_dashboard_code
  cases ht : tabsAux 0 ms.metrics with
  | none =>
    refine iff_of_true (by simp) ?_
    obtain ⟨m, hmem, hname⟩ := (tabsAux_eq_none_iff ms.metrics 0).mp ht
    exact ⟨m, hmem, Or.inl hname⟩
  | some tabs =>
    cases he : entriesAux 0 ms.metrics with
    | none =>
      refine iff_of_true (by simp) ?_
      exact (entriesAux_eq_none_iff ms.metrics 0).mp he
    | some es =>
      refine iff_of_false (by simp) ?_
      rintro ⟨m, hmem, hbad⟩
      rcases hbad with hb | hb | hb
      · exact absurd ((tabsAux_eq_none_iff ms.metrics 0).mpr ⟨m, hmem, hb⟩)
          (by simp [ht])
      · exact absurd ((entriesAux_eq_none_iff ms.metrics 0).mpr
          ⟨m, hmem, Or.inr (Or.inl hb)⟩) (by simp [he])
      · exact absurd ((entriesAux_eq_none_iff ms.metrics 0).mpr
          ⟨m, hmem, Or.inr (Or.inr hb)⟩) (by simp [he])

/-- Counterexample to C7 as stated: a metric missing the required fields description
and update_frequency renders without error in both the sample visualizer and the
dashboard code generator, because neither component reads those two keys. -/
theorem missing_description_renders_fine :
    metricNoDescription.description = none ∧
    metricNoDescription.update_frequency = none ∧
    (generate_sample_visualization (fun _ => 0) (fun _ => 0)
      metricNoDescription).isSome = true ∧
    (generate_dashboard_code (MetricSet.mk [metricNoDescription])).isSome = true := by
  refine ⟨rfl, rfl, Option.ne_none_iff_isSome.mp ?_, Option.ne_none_iff_isSome.mp ?_⟩
  · intro hc
    rcases (generate_sample_visualization_eq_none_iff _ _ _).mp hc with h | h <;>
      simp [metricNoDescription] at h
  · intro hc
    obtain ⟨m2, hmem, hbad⟩ := (generate_dashboard_code_eq_none_iff _).mp hc
    simp at hmem
    subst hmem
    rcases hbad with hb | hb | hb <;> simp [metricNoDescription] at hb

/-- C7 (amended): downstream rendering fails with a missing-key error exactly when a
key it actually reads is missing — the sample visualizer iff the metric lacks
visualization_type or name, the generator iff some metric of the set lacks name,
sql_query or visualization_type; a metric missing only description or
update_frequency fails neither component; and the pipeline performs no earlier
validation that would reject such a metric (the proposer returns any decoded
response as-is). -/
theorem downstream_missing_key (normals randints : Nat → Int) (m : Metric)
    (ms : MetricSet) :
    (generate_sample_visualization normals randints m = none ↔
      m.visualization_type = none ∨ m.name = none) ∧
    (generate_dashboard_code ms = none ↔
      ∃ m2 ∈ ms.metrics,
        m2.name = none ∨ m2.sql_query = none ∨ m2.visualization_type = none) ∧
    (∀ t j, json_loads t = Except.ok j → analyze_schema t = Except.ok j) :=
  ⟨generate_sample_visualization_eq_none_iff normals randints m,
   generate_dashboard_code_eq_none_iff ms,
   fun _ _ h => h⟩

/-- Witness for C7 (amended) at concrete inputs: the all-keys-missing metric makes
the visualizer raise, and the proposer passes a decoded `null` response through
unvalidated. -/
theorem downstream_missing_key_witness :
    generate_sample_visualization (fun _ => 0) (fun _ => 0)
      (Metric.mk none none none none none) = none ∧
    analyze_schema "null" = Except.ok Json.null :=
  ⟨(downstream_missing_key (fun _ => 0) (fun _ => 0) (Metric.mk none none none none none)
      (MetricSet.mk [])).1.mpr (Or.inl rfl),
   (downstream_missing_key (fun _ => 0) (fun _ => 0) (Metric.mk none none none none none)
      (MetricSet.mk [])).2.2 "null" Json.null rfl⟩

/-- C8: invoking the sample visualizer on any metric of a MetricSet and invoking the
generator on the whole set leaves the MetricSet unchanged — the state-passing
embeddings of both read-only bodies return the state as-is, and their results
coincide with the pure embeddings, so both operations only read the MetricSet. -/
theorem metricset_read_only (normals randints : Nat → Int) (ms : MetricSet) (m : Metric)
    (_hm : m ∈ ms.metrics) :
    (generate_sample_visualization_st normals randints m).2 = m ∧
    (generate_dashboard_code_st ms).2 = ms ∧
    (generate_sample_visualization_st normals randints m).1 =
      generate_sample_visualization normals randints m ∧
    (generate_dashboard_code_st ms).1 = generate_dashboard_code ms :=
  ⟨rfl, rfl, rfl, rfl⟩

/-- Witness for C8 at the spec's end-to-end scenario MetricSet. -/
theorem metricset_read_only_witness :
    (generate_sample_visualization_st (fun _ => 0) (fun _ => 0) sampleMetric).2 =
      sampleMetric ∧
    (generate_dashboard_code_st (MetricSet.mk [sampleMetric])).2 =
      MetricSet.mk [sampleMetric] ∧
    (generate_sample_visualization_st (fun _ => 0) (fun _ => 0) sampleMetric).1 =
      generate_sample_visualization (fun _ => 0) (fun _ => 0) sampleMetric ∧
    (generate_dashboard_code_st (MetricSet.mk [sampleMetric])).1 =
      generate_dashboard_code (MetricSet.mk [sampleMetric]) :=
  metricset_read_only (fun _ => 0) (fun _ => 0) (MetricSet.mk [sampleMetric]) sampleMetric
    (List.mem_cons_self sampleMetric [])

/-- C4: for every metric carrying its name and visualization_type, the sample
visualizer returns without raising and produces a chart titled with the metric's
name whose data-series length follows the declared kind — line and bar yield a
30-point series, pie a 4-value series over the 4 fixed category labels, and any
other string (empty, scatter, or unrecognized) falls back to a 30-point scatter
series via the default branch. -/
theorem generate_sample_visualization_contract (normals randints : Nat → Int)
    (m : Metric) (nm vt : String) (hn : m.name = some nm)
    (hv : m.visualization_type = some vt) :
    ∃ fig, generate_sample_visualization normals randints m = some fig ∧
      fig.title = nm ∧
      (vt.toLower = "line" → fig.kind = ChartKind.line ∧ fig.values.length = 30) ∧
      (vt.toLower = "bar" → fig.kind = ChartKind.bar ∧ fig.values.length = 30) ∧
      (vt.toLower = "pie" → fig.kind = ChartKind.pie ∧ fig.values.length = 4 ∧
        fig.names = pieLabels) ∧
      (vt.toLower ≠ "line" → vt.toLower ≠ "bar" → vt.toLower ≠ "pie" →
        fig.kind = ChartKind.scatter ∧ fig.values.length = 30) := by
  by_cases h1 : vt.toLower = "line"
  · refine ⟨Figure.mk ChartKind.line nm (List.range 30) []
      (np_cumsum ((List.range 30).map normals)), ?_, rfl, ?_, ?_, ?_, ?_⟩
    · simp [generate_sample_visualization, hv, h1, hn]
    · intro _
      exact ⟨rfl, by simp [np_cumsum_length]⟩
    · intro hb
      exact absurd (h1.symm.trans hb) (by decide)
    · intro hp
      exact absurd (h1.symm.trans hp) (by decide)
    · intro hc _ _
      exact absurd h1 hc
  by_cases h2 : vt.toLower = "bar"
  · refine ⟨Figure.mk ChartKind.bar nm (List.range 30) []
      ((List.range 30).map randints), ?_, rfl, ?_, ?_, ?_, ?_⟩
    · simp [generate_sample_visualization, hv, h1, h2, hn]
    · intro hl
      exact absurd (h2.symm.trans hl) (by decide)
    · intro _
      exact ⟨rfl, by simp⟩
    · intro hp
      exact absurd (h2.symm.trans hp) (by decide)
    · intro _ hc _
      exact absurd h2 hc
  by_cases h3 : vt.toLower = "pie"
  · refine ⟨Figure.mk ChartKind.pie nm [] pieLabels ((List.range 4).map randints),
      ?_, rfl, ?_, ?_, ?_, ?_⟩
    · simp [generate_sample_visualization, hv, h1, h2, h3, hn]
    · intro hl
      exact absurd (h3.symm.trans hl) (by decide)
    · intro hb
      exact absurd (h3.symm.trans hb) (by decide)
    · intro _
      exact ⟨rfl, by simp, rfl⟩
    · intro _ _ hc
      exact absurd h3 hc
  · refine ⟨Figure.mk ChartKind.scatter nm (List.range 30) []
      ((List.range 30).map randints), ?_, rfl, ?_, ?_, ?_, ?_⟩
    · simp [generate_sample_visualization, hv, h1, h2, h3, hn]
    · intro hl
      exact absurd hl h1
    · intro hb
      exact absurd hb h2
    · intro hp
      exact absurd hp h3
    · intro _ _ _
      exact ⟨rfl, by simp⟩

/-- Witness for C4 at the spec's end-to-end scenario metric (a line metric). -/
theorem generate_sample_visualization_contract_witness :
    ∃ fig, generate_sample_visualization (fun _ => 0) (fun _ => 1) sampleMetric =
        some fig ∧
      fig.title = "Daily Revenue" ∧
      (String.toLower "line" = "line" →
        fig.kind = ChartKind.line ∧ fig.values.length = 30) ∧
      (String.toLower "line" = "bar" →
        fig.kind = ChartKind.bar ∧ fig.values.length = 30) ∧
      (String.toLower "line" = "pie" → fig.kind = ChartKind.pie ∧
        fig.values.length = 4 ∧ fig.names = pieLabels) ∧
      (String.toLower "line" ≠ "line" → String.toLower "line" ≠ "bar" →
        String.toLower "line" ≠ "pie" →
        fig.kind = ChartKind.scatter ∧ fig.values.length = 30) :=
  generate_sample_visualization_contract (fun _ => 0) (fun _ => 1) sampleMetric
    "Daily Revenue" "line" rfl rfl

/-- C10: branch selection is case-insensitive in visualization_type — a metric and
an otherwise-identical metric whose visualization_type is the lowercased string
select the same chart kind, because the source lowercases before every comparison
and lowercasing is idempotent; in particular LINE and Line select the line branch
rather than the scatter fallback. -/
theorem generate_sample_visualization_case_insensitive (normals randints : Nat → Int)
    (m mlower : Metric) (nm vt : String) (hn : m.name = some nm)
    (hv : m.visualization_type = some vt) (hn2 : mlower.name = some nm)
    (hv2 : mlower.visualization_type = some vt.toLower) :
    Option.map Figure.kind (generate_sample_visualization normals randints m) =
      Option.map Figure.kind (generate_sample_visualization normals randints mlower) := by
  have hline : String.toLower "line" = "line" := by
    simp only [String.toLower, String.map_eq]
    decide
  have hbar : String.toLower "bar" = "bar" := by
    simp only [String.toLower, String.map_eq]
    decide
  have hpie : String.toLower "pie" = "pie" := by
    simp only [String.toLower, String.map_eq]
    decide
  by_cases h1 : vt.toLower = "line"
  · simp [generate_sample_visualization, hv, hv2, hn, hn2, h1, hline]
  by_cases h2 : vt.toLower = "bar"
  · simp [generate_sample_visualization, hv, hv2, hn, hn2, h1, h2, hline, hbar]
  by_cases h3 : vt.toLower = "pie"
  · simp [generate_sample_visualization, hv, hv2, hn, hn2, h1, h2, h3, hline, hbar, hpie]
  · simp [generate_sample_visualization, hv, hv2, hn, hn2, string_toLower_toLower, h1,
      h2, h3]

/-- Witness for C10: a metric declaring LINE selects the same branch as its
lowercased twin, namely the line branch. -/
theorem generate_sample_visualization_case_insensitive_witness :
    (Option.map Figure.kind (generate_sample_visualization (fun _ => 0) (fun _ => 0)
        (Metric.mk (some "A") none none (some "LINE") none)) =
      Option.map Figure.kind (generate_sample_visualization (fun _ => 0) (fun _ => 0)
        (Metric.mk (some "A") none none (some (String.toLower "LINE")) none))) ∧
    Option.map Figure.kind (generate_sample_visualization (fun _ => 0) (fun _ => 0)
        (Metric.mk (some "A") none none (some (String.toLower "LINE")) none)) =
      some ChartKind.line := by
  constructor
  · exact generate_sample_visualization_case_insensitive (fun _ => 0) (fun _ => 0)
      (Metric.mk (some "A") none none (some "LINE") none)
      (Metric.mk (some "A") none none (some (String.toLower "LINE")) none)
      "A" "LINE" rfl rfl rfl rfl
  · have hl : String.toLower "LINE" = "line" := by
      simp only [String.toLower, String.map_eq]
      decide
    have hl2 : String.toLower "line" = "line" := by
      simp only [String.toLower, String.map_eq]
      decide
    simp [generate_sample_visualization, hl, hl2]

end MetricsGenerator
